import Mathlib

/-
  Verification development for the sqlx query-description pipeline
  (sqlx-macros/src/query/{mod,input}.rs).

  The Rust source is shallowly embedded below.  Compile-time feature flags
  (`#[cfg(feature = ...)]`) are modelled by a `Features` record of booleans;
  external collaborators (the `url` crate, the filesystem, the live database
  connection, and the modules `args.rs` / `output.rs` / `data.rs` that are not
  part of the sources under consideration) are modelled as explicit function
  parameters or, where their behaviour matters, as definitions marked
  "Modelled from the spec".
-/

namespace Sqlx

/-- Compiled-in cargo features of sqlx-macros that the query module consults
(`postgres`, `mysql`, `sqlite`, `mssql`, `offline`). -/
structure Features where
  postgres : Bool
  mysql : Bool
  sqlite : Bool
  mssql : Bool
  offline : Bool
deriving DecidableEq

/-- The output-shape choice of the macro input.  input.rs declares
`RecordType { Given(Type), Generated }`; mod.rs additionally matches a
`Scalar` variant in `expand_with_data`, so the embedding carries all three.
Types are represented by their printed form. -/
inductive RecordType where
  | Generated : RecordType
  | Given : String → RecordType
  | Scalar : RecordType
deriving DecidableEq

/-- `QueryMacroInput` of input.rs.  `argExprs` are the argument expressions
(opaque strings); `expand_with_data` compares one generated argument name per
expression against the parameter count, so the length is what matters. -/
structure QueryMacroInput where
  src : String
  recordType : RecordType
  argExprs : List String
  checked : Bool
deriving DecidableEq

/-- A user-supplied per-column type override.  Modelled from the spec:
the override syntax is decoded by `output.rs` (not under the sources here);
§4.5 describes a `HostType` flag "is wildcard override" and explicit
type annotations. -/
inductive TypeOverride where
  | wildcard : TypeOverride
  | explicit : String → TypeOverride
deriving DecidableEq

/-- A result-column descriptor of a `Describe` (spec §3 ColumnDescriptor):
name, reported nullability (`none` = backend could not determine), native
type tag, and the user override carried with the column (modelled from the
spec, see `TypeOverride`). -/
structure Column where
  name : String
  nullable : Option Bool
  nativeType : String
  columnOverride : Option TypeOverride
deriving DecidableEq

/-- `Describe` (sqlx-core): ordered parameter descriptors (`none` = backend
could not determine the type) and ordered result columns. -/
structure Describe where
  params : List (Option String)
  columns : List Column
deriving DecidableEq

/-- `QueryData<DB>` as used by `expand_with_data`: the describe result for
one query on one backend. -/
structure QueryData where
  describe : Describe
deriving DecidableEq

/-- An entry of the offline snapshot (`DynQueryData` of data/offline.rs):
the backend tag, the exact query text it was captured for, and the stored
description. -/
structure DynQueryData where
  dbName : String
  query : String
  describe : Describe
deriving DecidableEq

/-- A column as prepared for code generation (`output::RustColumn`):
identifier and, unless the user gave a wildcard override, the resolved host
type.  `type_ = none` means a wildcard override. -/
structure RustColumn where
  ident : String
  type_ : Option String
deriving DecidableEq

/-- The generation strategy decided by `expand_with_data` (spec §4.6):
a no-row execution binding, a freshly generated record, a caller-supplied
type, or a single scalar. -/
inductive OutputStrategy where
  | noRow : String → OutputStrategy
  | genRecord : List (String × String) → OutputStrategy
  | existing : String → List RustColumn → OutputStrategy
  | scalar : String → String → OutputStrategy
deriving DecidableEq

/-- Backend tag of PostgreSQL (`sqlx_core::postgres::Postgres::NAME`).
Modelled from the spec: sqlx-core is not under the sources here; §3 calls
these the `backend_tag` strings. -/
def pgName : String := "PostgreSQL"

/-- Backend tag of MySQL (`sqlx_core::mysql::MySql::NAME`).  Modelled from
the spec, see `pgName`. -/
def mysqlName : String := "MySQL"

/-- Backend tag of SQLite (`sqlx_core::sqlite::Sqlite::NAME`).  Modelled
from the spec, see `pgName`. -/
def sqliteName : String := "SQLite"

/-- Backend tag of MSSQL (`sqlx_core::mssql::Mssql::NAME`).  Modelled from
the spec, see `pgName`. -/
def mssqlName : String := "MSSQL"

/-- The error of `expand_with_data` when the argument count does not match
the parameter count of the describe result (mod.rs lines 181-191). -/
def argCountError (params args : Nat) : String :=
  "expected " ++ toString params ++ " parameters, got " ++ toString args

/-- The error of `expand_with_data` for a zero-column query whose macro
variant expects columns (mod.rs line 206). -/
def noColumnsError : String :=
  "query produces no columns but this macro variant expects columns"

/-- The error of `expand_with_data` for a wildcard override in a generated
record (mod.rs lines 217-221; the unbalanced backtick is verbatim). -/
def wildcardError : String :=
  "columns may not have wildcard overrides in `query!()` or `query_unchecked!()"

/-- The error of `expand_with_data` for scalar mode with a column count
other than one (mod.rs lines 249-253). -/
def scalarCountError (n : Nat) : String :=
  "expected exactly one column from query, got " ++ toString n

/-- Modelled from the spec: `output::get_scalar_type` lives in output.rs,
which is not under the sources here.  Per §4.5 it maps the single column's
native type to a host type, wrapping in `Option` unless the backend reported
the column non-nullable. -/
def getScalarType (tyMap : String → Option String) (c : Column) : String :=
  let base := (tyMap c.nativeType).getD "_"
  if c.nullable = some false then base else "Option<" ++ base ++ ">"

/-- Modelled from the spec: `output::columns_to_rust` lives in output.rs,
which is not under the sources here.  Per §4.5: a wildcard override yields a
column with no resolved type; an explicit override replaces the mapped type
and suppresses nullable-wrapping; otherwise the backend's table maps the
native type (unmapped tags fail, quoting the tag) and the result is wrapped
in `Option` unless the backend reported `nullable = Some(false)`. -/
def columnToRust (tyMap : String → Option String) (c : Column) :
    Except String RustColumn :=
  match c.columnOverride with
  | some .wildcard => .ok { ident := c.name, type_ := none }
  | some (.explicit t) => .ok { ident := c.name, type_ := some t }
  | none =>
    match tyMap c.nativeType with
    | none => .error ("unsupported type " ++ c.nativeType ++ " of column " ++ c.name)
    | some t =>
      if c.nullable = some false then .ok { ident := c.name, type_ := some t }
      else .ok { ident := c.name, type_ := some ("Option<" ++ t ++ ">") }

/-- All columns of a describe result, mapped by `columnToRust` in order. -/
def columnsToRust (tyMap : String → Option String) (d : Describe) :
    Except String (List RustColumn) :=
  d.columns.mapM (columnToRust tyMap)

/-- The output decision of `expand_with_data` (mod.rs lines 197-265): the
shape/column-count matrix.  `tyMap` is the backend's native→host type table
(spec §4.5; the tables live outside the sources here). -/
def assembleOutput (tyMap : String → Option String) (input : QueryMacroInput)
    (d : Describe) : Except String OutputStrategy :=
  if d.columns.isEmpty then
    match input.recordType with
    | .Generated => .ok (.noRow input.src)
    | _ => .error noColumnsError
  else
    match input.recordType with
    | .Generated =>
      (columnsToRust tyMap d).bind fun cols =>
        if cols.any (fun c => c.type_.isNone) then .error wildcardError
        else .ok (.genRecord (cols.map fun c => (c.ident, c.type_.getD "")))
    | .Given ty => (columnsToRust tyMap d).map fun cols => .existing ty cols
    | .Scalar =>
      match d.columns with
      | [c] => .ok (.scalar (getScalarType tyMap c) input.src)
      | cs => .error (scalarCountError cs.length)

/-- The tail of `expand_with_data` after the argument-count check passed:
`args::quote_args` (args.rs, outside the sources here, passed in as its
outcome `quoteArgs`), then the output decision, then — whenever the
`offline` feature is compiled in — the unconditional cache save of mod.rs
lines 281-291 (`data.save_in`, with the filesystem steps modelled as
succeeding).  The boolean of the result records whether a cache entry was
written. -/
def expandChecked (feats : Features) (tyMap : String → Option String)
    (quoteArgs : Except String Unit) (input : QueryMacroInput)
    (data : QueryData) : Except String (OutputStrategy × Bool) :=
  (quoteArgs.bind fun _ => assembleOutput tyMap input data.describe).map
    fun out => (out, feats.offline)

/-- `expand_with_data` (mod.rs lines 173-294): first the argument-count
check, then `expandChecked`. -/
def expandWithData (feats : Features) (tyMap : String → Option String)
    (quoteArgs : Except String Unit) (input : QueryMacroInput)
    (data : QueryData) : Except String (OutputStrategy × Bool) :=
  if input.argExprs.length = data.describe.params.length then
    expandChecked feats tyMap quoteArgs input data
  else
    .error (argCountError data.describe.params.length input.argExprs.length)

/-- The compiled-in database backends `expand_from_db` can dispatch to. -/
inductive Backend where
  | postgres : Backend
  | mssql : Backend
  | mysql : Backend
  | sqlite : Backend
deriving DecidableEq

/-- A parsed connection URL (the `url` crate is an external collaborator;
only the scheme is consulted by mod.rs). -/
structure Url where
  scheme : String
deriving DecidableEq

/-- Feature-not-enabled error of `expand_from_db` (mod.rs lines 78, 91, 104,
117): `dbName` is the display name of the database, `feature` the cargo
feature that would be required. -/
def schemeFeatureError (dbName feature : String) : String :=
  "database URL has the scheme of a " ++ dbName ++ " database but the `" ++
    feature ++ "` feature is not enabled"

/-- Unknown-scheme error of `expand_from_db` (mod.rs line 119; `{:?}` quotes
the scheme). -/
def unknownSchemeError (scheme : String) : String :=
  "unknown database URL scheme \"" ++ scheme ++ "\""

/-- The scheme dispatch of `expand_from_db` (mod.rs lines 66-120): each
scheme (with its alias) selects exactly one backend when the matching
feature is compiled in, errors naming the required backend when it is not,
and an unknown scheme errors naming the scheme. -/
def selectBackend (feats : Features) (scheme : String) : Except String Backend :=
  if scheme = "postgres" ∨ scheme = "postgresql" then
    if feats.postgres then .ok .postgres
    else .error (schemeFeatureError "PostgreSQL" "postgres")
  else if scheme = "mssql" ∨ scheme = "sqlserver" then
    if feats.mssql then .ok .mssql
    else .error (schemeFeatureError "MSSQL" "mssql")
  else if scheme = "mysql" ∨ scheme = "mariadb" then
    if feats.mysql then .ok .mysql
    else .error (schemeFeatureError "MySQL/MariaDB" "mysql")
  else if scheme = "sqlite" then
    if feats.sqlite then .ok .sqlite
    else .error (schemeFeatureError "SQLite" "sqlite")
  else .error (unknownSchemeError scheme)

/-- `expand_from_db` (mod.rs lines 61-121): parse the URL (external `url`
crate, passed as `parseUrl`), select the backend from its scheme, run the
connect-and-describe round trip (external, passed as `oracle`, taking the
backend, the URL text and the query text), and hand the description to
`expand_with_data`. -/
def expandFromDb (parseUrl : String → Except String Url)
    (oracle : Backend → String → String → Except String Describe)
    (feats : Features) (tyMap : String → Option String)
    (quoteArgs : Except String Unit) (input : QueryMacroInput)
    (dbUrl : String) : Except String (OutputStrategy × Bool) :=
  (parseUrl dbUrl).bind fun u =>
    (selectBackend feats u.scheme).bind fun b =>
      (oracle b dbUrl input.src).bind fun d =>
        expandWithData feats tyMap quoteArgs input ⟨d⟩

/-- Modelled from the spec: `DynQueryData::from_data_file` lives in
data/offline.rs, which is not under the sources here.  Per §4.4 it loads the
snapshot and locates the entry matching the current query's exact source
text; a missing entry is a hard error instructing regeneration, with no
fuzzy match. -/
def fromDataFile (snapshot : List DynQueryData) (src : String) :
    Except String DynQueryData :=
  match snapshot.find? (fun e => e.query == src) with
  | some e => .ok e
  | none =>
    .error "failed to find data for query; run `cargo sqlx prepare` to regenerate sqlx-data.json"

/-- The error of `expand_from_file` for a cached entry whose backend feature
is not compiled in (mod.rs lines 149-153). -/
def offlineFeatureError (dbName : String) : String :=
  "found query data for " ++ dbName ++
    " but the feature for that database was not enabled"

/-- `expand_from_file` (mod.rs lines 124-155): load the matching snapshot
entry, then dispatch on its backend tag — only PostgreSQL, MySQL and SQLite
arms exist, each guarded by its feature; everything else (including MSSQL)
falls through to the feature error.  The `assert!(!db_name.is_empty())` is
modelled as an error.  Specialization (`QueryData::from_dyn_data`, in
data.rs outside the sources here) is modelled from the spec §9 as the
conversion that succeeds when the tag matches the chosen backend. -/
def expandFromFile (feats : Features) (tyMap : String → Option String)
    (quoteArgs : Except String Unit) (input : QueryMacroInput)
    (snapshot : List DynQueryData) : Except String (OutputStrategy × Bool) :=
  (fromDataFile snapshot input.src).bind fun dynData =>
    if dynData.dbName = "" then .error "assertion failed: empty db_name in query data"
    else if feats.postgres ∧ dynData.dbName = pgName then
      expandWithData feats tyMap quoteArgs input ⟨dynData.describe⟩
    else if feats.mysql ∧ dynData.dbName = mysqlName then
      expandWithData feats tyMap quoteArgs input ⟨dynData.describe⟩
    else if feats.sqlite ∧ dynData.dbName = sqliteName then
      expandWithData feats tyMap quoteArgs input ⟨dynData.describe⟩
    else .error (offlineFeatureError dynData.dbName)

/-- Error of `expand_input` when `CARGO_MANIFEST_DIR` is unset
(mod.rs line 26). -/
def noManifestError : String := "`CARGO_MANIFEST_DIR` must be set"

/-- Error of `expand_input` when neither `DATABASE_URL` nor sqlx-data.json
is available, with the `offline` feature compiled in (mod.rs lines 47-52;
the source string's line continuation is collapsed verbatim). -/
def noUrlOfflineError : String :=
  "`DATABASE_URL` must be set, or `cargo sqlx prepare` must have been run and sqlx-data.json must exist, to use query macros"

/-- Error of `expand_input` when `DATABASE_URL` is unset and the `offline`
feature is not compiled in (mod.rs line 56). -/
def noUrlError : String := "`DATABASE_URL` must be set to use query macros"

/-- The environment-derived state `expand_input` consults: the manifest
directory, the outcome of the `.env` load (dotenv is an external
collaborator; an error is only possible when a `.env` file exists and is
malformed), the resolved `DATABASE_URL`, and the contents of
sqlx-data.json at the manifest directory when that file exists. -/
structure BuildEnv where
  manifestDir : Option String
  envLoad : Except String Unit
  databaseUrl : Option String
  dataFile : Option (List DynQueryData)

/-- `expand_input` (mod.rs lines 24-58): require `CARGO_MANIFEST_DIR`, load
`.env`, then dispatch — a present `DATABASE_URL` takes the live path; an
absent one takes the offline path when the `offline` feature is compiled in
and sqlx-data.json exists, and errors otherwise. -/
def expand_input (parseUrl : String → Except String Url)
    (oracle : Backend → String → String → Except String Describe)
    (feats : Features) (tyMap : String → Option String)
    (quoteArgs : Except String Unit) (env : BuildEnv)
    (input : QueryMacroInput) : Except String (OutputStrategy × Bool) :=
  match env.manifestDir with
  | none => .error noManifestError
  | some _ =>
    env.envLoad.bind fun _ =>
      match env.databaseUrl with
      | some url => expandFromDb parseUrl oracle feats tyMap quoteArgs input url
      | none =>
        if feats.offline then
          match env.dataFile with
          | some snap => expandFromFile feats tyMap quoteArgs input snap
          | none => .error noUrlOfflineError
        else .error noUrlError

/-- `Path::is_absolute` on the paths-as-strings model (Unix: the path starts
with the root separator). -/
def isAbsolute (p : String) : Bool :=
  match p.data with
  | [] => false
  | c :: _ => c == '/'

/-- The characters of a path with trailing separators dropped
(`Path::components` normalization: trailing separators add no component). -/
def dropTrailingSlashes (p : String) : List Char :=
  (p.data.reverse.dropWhile (fun c => c == '/')).reverse

/-- Whether `Path::parent` is a nonempty path: the check of input.rs lines
117-121.  A relative path has a nonempty parent exactly when a separator
remains once trailing separators are dropped. -/
def hasParentDir (p : String) : Bool :=
  (dropTrailingSlashes p).contains '/'

/-- `Path::join` on the paths-as-strings model. -/
def joinPath (base p : String) : String := base ++ "/" ++ p

/-- Error of `read_file_src` for an absolute path (input.rs lines 108-113). -/
def absolutePathError : String :=
  "absolute paths will only work on the current machine"

/-- Error of `read_file_src` for a relative path without a parent directory
component (input.rs lines 117-126). -/
def relativePathError : String :=
  "paths relative to the current file's directory are not currently supported"

/-- Error of `read_file_src` when `CARGO_MANIFEST_DIR` is unset
(input.rs lines 128-133). -/
def manifestDirError : String :=
  "CARGO_MANIFEST_DIR is not set; please use Cargo to build"

/-- `fs::read_to_string` with the error message of input.rs lines 139-148
(the filesystem is external, passed as `fs`; the OS error text is elided). -/
def readQueryFile (fs : String → Option String) (path : String) :
    Except String String :=
  match fs path with
  | some contents => .ok contents
  | none => .error ("failed to read query file at " ++ path)

/-- `read_file_src` (input.rs lines 103-149): reject absolute paths, then
relative paths without a parent directory component, then resolve against
`CARGO_MANIFEST_DIR` (absence is an error) and read the file. -/
def read_file_src (source : String) (manifestDir : Option String)
    (fs : String → Option String) : Except String String :=
  if isAbsolute source then .error absolutePathError
  else if ¬ hasParentDir source then .error relativePathError
  else
    match manifestDir with
    | none => .error manifestDirError
    | some base => readQueryFile fs (joinPath base source)

/-- `QuerySrc` of input.rs: inline source text or a file reference. -/
inductive QuerySrc where
  | string : String → QuerySrc
  | file : String → QuerySrc
deriving DecidableEq

/-- The value following `key =` in the macro input, after syn tokenization:
a nonempty `+`-separated run of string literals, a single string literal, an
array of expressions, a type, or a boolean literal.  A value of the wrong
kind for its key is a syn parse error. -/
inductive InputValue where
  | strLits : List String → InputValue
  | fileStr : String → InputValue
  | exprList : List String → InputValue
  | tyVal : String → InputValue
  | boolLit : Bool → InputValue
deriving DecidableEq

/-- The mutable locals of `QueryMacroInput::parse` (input.rs lines 36-39). -/
structure ParseState where
  querySrc : Option QuerySrc
  args : Option (List String)
  recordType : RecordType
  checked : Bool
deriving DecidableEq

/-- Initial parse state (input.rs lines 36-39): no source, no args, a
generated record, checked mode. -/
def initParseState : ParseState :=
  { querySrc := none, args := none, recordType := .Generated, checked := true }

/-- One iteration of the parse loop of `QueryMacroInput::parse` (input.rs
lines 43-76): dispatch on the key, parse the value at the expected type,
update the state; an unknown key errors naming the key. -/
def parseStep (st : ParseState) (entry : String × InputValue) :
    Except String ParseState :=
  if entry.1 = "source" then
    match entry.2 with
    | .strLits [] => .error "expected string literal"
    | .strLits parts => .ok { st with querySrc := some (.string (String.join parts)) }
    | _ => .error "expected string literal"
  else if entry.1 = "source_file" then
    match entry.2 with
    | .fileStr f => .ok { st with querySrc := some (.file f) }
    | _ => .error "expected string literal"
  else if entry.1 = "args" then
    match entry.2 with
    | .exprList es => .ok { st with args := some es }
    | _ => .error "expected array of expressions"
  else if entry.1 = "record" then
    match entry.2 with
    | .tyVal t => .ok { st with recordType := .Given t }
    | _ => .error "expected type"
  else if entry.1 = "checked" then
    match entry.2 with
    | .boolLit b => .ok { st with checked := b }
    | _ => .error "expected boolean literal"
  else .error ("unexpected input key: " ++ entry.1)

/-- The parse loop: fold `parseStep` over the key/value entries. -/
def runParse (st : ParseState) : List (String × InputValue) →
    Except String ParseState
  | [] => .ok st
  | e :: rest => (parseStep st e).bind fun st' => runParse st' rest

/-- Error of `QueryMacroInput::parse` when no source was supplied
(input.rs lines 78-79). -/
def missingSourceError : String := "expected `source` or `source_file` key"

/-- `QuerySrc::resolve` (input.rs lines 93-101): inline text is returned as
is; a file reference is read via `read_file_src`. -/
def resolveSrc (src : QuerySrc) (manifestDir : Option String)
    (fs : String → Option String) : Except String String :=
  match src with
  | .string s => .ok s
  | .file f => read_file_src f manifestDir fs

/-- `QueryMacroInput::parse` (input.rs lines 34-91): run the loop, require a
source, resolve it, and assemble the `QueryMacroInput` (absent `args`
default to the empty list). -/
def parseQueryMacroInput (entries : List (String × InputValue))
    (manifestDir : Option String) (fs : String → Option String) :
    Except String QueryMacroInput :=
  (runParse initParseState entries).bind fun st =>
    match st.querySrc with
    | none => .error missingSourceError
    | some qs =>
      (resolveSrc qs manifestDir fs).map fun s =>
        { src := s, recordType := st.recordType,
          argExprs := st.args.getD [], checked := st.checked }

/-- An input entry whose key is recognized but is neither `source` nor
`source_file`, with a value of the kind its key expects. -/
def benignEntry (e : String × InputValue) : Prop :=
  (e.1 = "args" ∧ ∃ es, e.2 = .exprList es)
  ∨ (e.1 = "record" ∧ ∃ t, e.2 = .tyVal t)
  ∨ (e.1 = "checked" ∧ ∃ b, e.2 = .boolLit b)

/-- A build with every cargo feature compiled in. -/
def allFeatures : Features := ⟨true, true, true, true, true⟩

/-- A concrete zero-argument, generated-record macro input. -/
def cInput0 : QueryMacroInput :=
  { src := "SELECT 1", recordType := .Generated, argExprs := [], checked := true }

/-- A concrete scalar-mode macro input. -/
def cInputScalar : QueryMacroInput :=
  { src := "SELECT a, b FROM t", recordType := .Scalar, argExprs := [], checked := true }

/-- A concrete column descriptor. -/
def cColA : Column :=
  { name := "a", nullable := none, nativeType := "INT", columnOverride := none }

/-- A second concrete column descriptor. -/
def cColB : Column :=
  { name := "b", nullable := none, nativeType := "INT", columnOverride := none }

/-- A concrete PostgreSQL-tagged snapshot entry for `SELECT 1` with no
parameters and no columns. -/
def cEntryPg : DynQueryData :=
  { dbName := pgName, query := "SELECT 1", describe := { params := [], columns := [] } }

/-- A concrete MSSQL-tagged snapshot entry for `SELECT 1`. -/
def cEntryMssql : DynQueryData :=
  { dbName := mssqlName, query := "SELECT 1", describe := { params := [], columns := [] } }

/-- A concrete environment with a manifest directory, no `DATABASE_URL`, and
an existing snapshot. -/
def cEnvOffline : BuildEnv :=
  { manifestDir := some "/proj", envLoad := .ok (), databaseUrl := none,
    dataFile := some [cEntryPg] }

/-- The `QueryMacroInput` produced by parsing
`source = "SELECT 1", checked = false`. -/
def cParsedUnchecked : QueryMacroInput :=
  { src := "SELECT 1", recordType := .Generated, argExprs := [], checked := false }

/-- When the argument count matches the parameter count, `expand_with_data`
proceeds past the check. -/
theorem expandWithData_args_eq (feats : Features) (tyMap : String → Option String)
    (quoteArgs : Except String Unit) (input : QueryMacroInput) (data : QueryData)
    (h : input.argExprs.length = data.describe.params.length) :
    expandWithData feats tyMap quoteArgs input data
      = expandChecked feats tyMap quoteArgs input data := by
  simp [expandWithData, h]

/-- C1: for every successfully described query, the output strategy follows
the shape/column-count matrix of `expand_with_data`: zero columns with a
generated record yields the no-row execution binding (no record type);
zero columns with any other shape is the hard no-columns error; scalar
mode succeeds exactly on a one-column result, and on a result of any other
nonzero column count n errors naming n. -/
theorem claim1_output_matrix (feats : Features) (tyMap : String → Option String)
    (input : QueryMacroInput) (data : QueryData)
    (hargs : input.argExprs.length = data.describe.params.length) :
    (data.describe.columns = [] → input.recordType = .Generated →
      expandWithData feats tyMap (.ok ()) input data
        = .ok (.noRow input.src, feats.offline))
  ∧ (data.describe.columns = [] → input.recordType ≠ .Generated →
      expandWithData feats tyMap (.ok ()) input data = .error noColumnsError)
  ∧ (∀ c, data.describe.columns = [c] → input.recordType = .Scalar →
      expandWithData feats tyMap (.ok ()) input data
        = .ok (.scalar (getScalarType tyMap c) input.src, feats.offline))
  ∧ (input.recordType = .Scalar → data.describe.columns ≠ [] →
      data.describe.columns.length ≠ 1 →
      expandWithData feats tyMap (.ok ()) input data
        = .error (scalarCountError data.describe.columns.length)) := by
  rw [expandWithData_args_eq _ _ _ _ _ hargs]
  refine ⟨?_, ?_, ?_, ?_⟩
  · intro hcols hrt
    simp [expandChecked, assembleOutput, hcols, hrt, Except.bind, Except.map]
  · intro hcols hrt
    cases h : input.recordType with
    | Generated => exact absurd h hrt
    | Given ty =>
      simp [expandChecked, assembleOutput, hcols, h, Except.bind, Except.map]
    | Scalar =>
      simp [expandChecked, assembleOutput, hcols, h, Except.bind, Except.map]
  · intro c hcols hrt
    simp [expandChecked, assembleOutput, hcols, hrt, Except.bind, Except.map]
  · intro hrt hne hlen
    cases hcols : data.describe.columns with
    | nil => exact absurd hcols hne
    | cons c rest =>
      cases rest with
      | nil => rw [hcols] at hlen; simp at hlen
      | cons c2 rest2 =>
        simp [expandChecked, assembleOutput, hcols, hrt, Except.bind, Except.map]

/-- Witness for C1 at a concrete two-column scalar query. -/
theorem claim1_output_matrix_witness :
    expandWithData allFeatures (fun _ => none) (.ok ()) cInputScalar
      ⟨{ params := [], columns := [cColA, cColB] }⟩
      = .error (scalarCountError 2) :=
  (claim1_output_matrix allFeatures (fun _ => none) cInputScalar
    ⟨{ params := [], columns := [cColA, cColB] }⟩ rfl).2.2.2
    rfl (by decide) (by decide)

/-- C2: supplying a number of arguments different from the parameter count
of the description is a hard error naming both counts, produced before the
type-mapping and output-assembly steps (it does not depend on the type
table nor on the argument-quoting outcome); supplying exactly the parameter
count passes the check and the pipeline continues. -/
theorem claim2_arg_count (feats : Features) (tyMap : String → Option String)
    (quoteArgs : Except String Unit) (input : QueryMacroInput) (data : QueryData) :
    (input.argExprs.length ≠ data.describe.params.length →
      expandWithData feats tyMap quoteArgs input data
        = .error (argCountError data.describe.params.length input.argExprs.length))
  ∧ (input.argExprs.length = data.describe.params.length →
      expandWithData feats tyMap quoteArgs input data
        = expandChecked feats tyMap quoteArgs input data) := by
  constructor
  · intro h; simp [expandWithData, h]
  · intro h; simp [expandWithData, h]

/-- Witness for C2 at one argument against a zero-parameter description. -/
theorem claim2_arg_count_witness :
    expandWithData allFeatures (fun _ => none) (.ok ())
      { cInput0 with argExprs := ["x"] } ⟨{ params := [], columns := [] }⟩
      = .error (argCountError 0 1) :=
  (claim2_arg_count allFeatures (fun _ => none) (.ok ())
    { cInput0 with argExprs := ["x"] } ⟨{ params := [], columns := [] }⟩).1
    (by decide)

/-- C3: a wildcard type override maps to a column with no resolved type and
no nullable-wrapping; with a generated record (`query!()`) any such column
is rejected with a hard error, while with an existing type the columns —
wildcard overrides included — are accepted, and nullable-wrapping is applied
only to columns without an override. -/
theorem claim3_wildcard_override (feats : Features) (tyMap : String → Option String)
    (input : QueryMacroInput) (data : QueryData) (cols : List RustColumn)
    (hargs : input.argExprs.length = data.describe.params.length) :
    (∀ c : Column, c.columnOverride = some .wildcard →
      columnToRust tyMap c = .ok { ident := c.name, type_ := none })
  ∧ (∀ (c : Column) (t : String), c.columnOverride = none →
      c.nullable ≠ some false → tyMap c.nativeType = some t →
      columnToRust tyMap c
        = .ok { ident := c.name, type_ := some ("Option<" ++ t ++ ">") })
  ∧ (input.recordType = .Generated → data.describe.columns ≠ [] →
      columnsToRust tyMap data.describe = .ok cols →
      (∃ c ∈ cols, c.type_ = none) →
      expandWithData feats tyMap (.ok ()) input data = .error wildcardError)
  ∧ (∀ ty, input.recordType = .Given ty →
      data.describe.columns ≠ [] →
      columnsToRust tyMap data.describe = .ok cols →
      expandWithData feats tyMap (.ok ()) input data
        = .ok (.existing ty cols, feats.offline)) := by
  refine ⟨?_, ?_, ?_, ?_⟩
  · intro c h
    simp [columnToRust, h]
  · intro c t h1 h2 h3
    simp [columnToRust, h1, h3, h2]
  · intro h1 h2 h3 hex
    obtain ⟨c, hc, hct⟩ := hex
    have hany : cols.any (fun c => c.type_.isNone) = true := by
      rw [List.any_eq_true]
      exact ⟨c, hc, by simp [hct]⟩
    have hne : data.describe.columns.isEmpty = false := by
      cases hcc : data.describe.columns with
      | nil => exact absurd hcc h2
      | cons x xs => rfl
    rw [expandWithData_args_eq _ _ _ _ _ hargs]
    simp [expandChecked, assembleOutput, hne, h1, h3, hany, Except.bind, Except.map]
  · intro ty h1 h2 h3
    have hne : data.describe.columns.isEmpty = false := by
      cases hcc : data.describe.columns with
      | nil => exact absurd hcc h2
      | cons x xs => rfl
    rw [expandWithData_args_eq _ _ _ _ _ hargs]
    simp [expandChecked, assembleOutput, hne, h1, h3, Except.bind, Except.map]

/-- Witness for C3: one wildcard-override column is rejected under the
generated-record shape. -/
theorem claim3_wildcard_override_witness :
    expandWithData allFeatures (fun _ => none) (.ok ())
      { cInput0 with src := "SELECT a FROM t" }
      ⟨{ params := [],
         columns := [{ cColA with columnOverride := some .wildcard }] }⟩
      = .error wildcardError :=
  (claim3_wildcard_override allFeatures (fun _ => none)
    { cInput0 with src := "SELECT a FROM t" }
    ⟨{ params := [],
       columns := [{ cColA with columnOverride := some .wildcard }] }⟩
    [{ ident := "a", type_ := none }] rfl).2.2.1
    rfl (by decide) rfl ⟨{ ident := "a", type_ := none }, by decide, rfl⟩

/-- When `expandChecked` succeeds, the write flag equals the `offline`
feature flag: the save block of mod.rs lines 281-291 runs after every
successful assembly, whatever the origin of the data. -/
theorem expandChecked_wrote (feats : Features) (tyMap : String → Option String)
    (quoteArgs : Except String Unit) (input : QueryMacroInput) (data : QueryData)
    (p : OutputStrategy × Bool)
    (h : expandChecked feats tyMap quoteArgs input data = .ok p) :
    p.2 = feats.offline := by
  unfold expandChecked at h
  cases quoteArgs with
  | error e => simp [Except.bind, Except.map] at h
  | ok u =>
    simp only [Except.bind] at h
    cases hA : assembleOutput tyMap input data.describe with
    | error e => rw [hA] at h; simp [Except.map] at h
    | ok o =>
      rw [hA] at h
      simp only [Except.map, Except.ok.injEq] at h
      rw [← h]

/-- The write flag of a successful `expand_with_data` equals the `offline`
feature flag. -/
theorem expandWithData_wrote (feats : Features) (tyMap : String → Option String)
    (quoteArgs : Except String Unit) (input : QueryMacroInput) (data : QueryData)
    (p : OutputStrategy × Bool)
    (h : expandWithData feats tyMap quoteArgs input data = .ok p) :
    p.2 = feats.offline := by
  unfold expandWithData at h
  split at h
  · exact expandChecked_wrote _ _ _ _ _ _ h
  · exact Except.noConfusion h

/-- The write flag of a successful `expand_from_file` equals the `offline`
feature flag: the offline-served path also saves. -/
theorem expandFromFile_wrote (feats : Features) (tyMap : String → Option String)
    (quoteArgs : Except String Unit) (input : QueryMacroInput)
    (snap : List DynQueryData) (p : OutputStrategy × Bool)
    (h : expandFromFile feats tyMap quoteArgs input snap = .ok p) :
    p.2 = feats.offline := by
  unfold expandFromFile at h
  cases hF : fromDataFile snap input.src with
  | error e => rw [hF] at h; exact Except.noConfusion h
  | ok dynData =>
    rw [hF] at h
    simp only [Except.bind] at h
    split at h
    · exact Except.noConfusion h
    · split at h
      · exact expandWithData_wrote _ _ _ _ _ _ h
      · split at h
        · exact expandWithData_wrote _ _ _ _ _ _ h
        · split at h
          · exact expandWithData_wrote _ _ _ _ _ _ h
          · exact Except.noConfusion h

/-- The write flag of a successful `expand_from_db` equals the `offline`
feature flag. -/
theorem expandFromDb_wrote (parseUrl : String → Except String Url)
    (oracle : Backend → String → String → Except String Describe)
    (feats : Features) (tyMap : String → Option String)
    (quoteArgs : Except String Unit) (input : QueryMacroInput) (dbUrl : String)
    (p : OutputStrategy × Bool)
    (h : expandFromDb parseUrl oracle feats tyMap quoteArgs input dbUrl = .ok p) :
    p.2 = feats.offline := by
  unfold expandFromDb at h
  cases hU : parseUrl dbUrl with
  | error e => rw [hU] at h; exact Except.noConfusion h
  | ok u =>
    rw [hU] at h; simp only [Except.bind] at h
    cases hB : selectBackend feats u.scheme with
    | error e => rw [hB] at h; exact Except.noConfusion h
    | ok b =>
      rw [hB] at h; simp only [Except.bind] at h
      cases hD : oracle b dbUrl input.src with
      | error e => rw [hD] at h; exact Except.noConfusion h
      | ok d =>
        rw [hD] at h; simp only [Except.bind] at h
        exact expandWithData_wrote _ _ _ _ _ _ h

/-- C4 counterexample: with the `offline` feature enabled, an expansion
served entirely from the offline snapshot (no live describe) still writes a
cache entry — the save block at the end of `expand_with_data` is not guarded
by the origin of the data, contradicting the claim that a snapshot-served
expansion never writes to the cache location. -/
theorem claim4_cache_write_counterexample :
    allFeatures.offline = true ∧
    expandFromFile allFeatures (fun _ => none) (.ok ()) cInput0 [cEntryPg]
      = .ok (.noRow "SELECT 1", true) :=
  ⟨rfl, rfl⟩

/-- C4 (amended): a cache entry is written exactly when the `offline`
feature is compiled in and the expansion succeeds — on the live-describe
path and on the snapshot-served path alike. -/
theorem claim4_cache_write_amended (feats : Features)
    (tyMap : String → Option String) (quoteArgs : Except String Unit)
    (input : QueryMacroInput) :
    (∀ data p, expandWithData feats tyMap quoteArgs input data = .ok p →
      p.2 = feats.offline)
  ∧ (∀ snap p, expandFromFile feats tyMap quoteArgs input snap = .ok p →
      p.2 = feats.offline)
  ∧ (∀ parseUrl oracle dbUrl p,
      expandFromDb parseUrl oracle feats tyMap quoteArgs input dbUrl = .ok p →
      p.2 = feats.offline) :=
  ⟨fun _ _ h => expandWithData_wrote _ _ _ _ _ _ h,
   fun _ _ h => expandFromFile_wrote _ _ _ _ _ _ h,
   fun _ _ _ _ h => expandFromDb_wrote _ _ _ _ _ _ _ _ h⟩

/-- Witness for the amended C4 at the concrete snapshot-served expansion. -/
theorem claim4_cache_write_amended_witness :
    ((OutputStrategy.noRow "SELECT 1", true) : OutputStrategy × Bool).2
      = allFeatures.offline :=
  (claim4_cache_write_amended allFeatures (fun _ => none) (.ok ()) cInput0).2.1
    [cEntryPg] (.noRow "SELECT 1", true) rfl

/-- C5 counterexample: MSSQL is a compiled-in backend here — the live
selector accepts the `mssql` scheme — yet an MSSQL-tagged snapshot entry
makes `expand_from_file` fail with the feature error, contradicting the
claim that every entry whose tag names a compiled-in backend is specialized
and processed. -/
theorem claim5_offline_backend_counterexample :
    selectBackend allFeatures "mssql" = .ok .mssql ∧
    expandFromFile allFeatures (fun _ => none) (.ok ()) cInput0 [cEntryMssql]
      = .error (offlineFeatureError mssqlName) :=
  ⟨rfl, rfl⟩

/-- C5 (amended): on the offline read path, an entry tagged PostgreSQL,
MySQL or SQLite whose feature is compiled in is specialized and processing
continues with that backend's data; an entry whose tag's feature is not
compiled in fails naming the database — and an MSSQL-tagged entry always
fails this way, even when the `mssql` feature is compiled in, because
`expand_from_file` has no MSSQL arm. -/
theorem claim5_offline_backend_amended (feats : Features)
    (tyMap : String → Option String) (quoteArgs : Except String Unit)
    (input : QueryMacroInput) (snap : List DynQueryData) (e : DynQueryData)
    (hfind : fromDataFile snap input.src = .ok e) :
    (e.dbName = pgName → feats.postgres = true →
      expandFromFile feats tyMap quoteArgs input snap
        = expandWithData feats tyMap quoteArgs input ⟨e.describe⟩)
  ∧ (e.dbName = mysqlName → feats.mysql = true →
      expandFromFile feats tyMap quoteArgs input snap
        = expandWithData feats tyMap quoteArgs input ⟨e.describe⟩)
  ∧ (e.dbName = sqliteName → feats.sqlite = true →
      expandFromFile feats tyMap quoteArgs input snap
        = expandWithData feats tyMap quoteArgs input ⟨e.describe⟩)
  ∧ (e.dbName = mssqlName →
      expandFromFile feats tyMap quoteArgs input snap
        = .error (offlineFeatureError e.dbName))
  ∧ (e.dbName = pgName → feats.postgres = false →
      expandFromFile feats tyMap quoteArgs input snap
        = .error (offlineFeatureError e.dbName))
  ∧ (e.dbName = mysqlName → feats.mysql = false →
      expandFromFile feats tyMap quoteArgs input snap
        = .error (offlineFeatureError e.dbName))
  ∧ (e.dbName = sqliteName → feats.sqlite = false →
      expandFromFile feats tyMap quoteArgs input snap
        = .error (offlineFeatureError e.dbName)) := by
  have hpg : pgName ≠ "" := by decide
  have hmy : mysqlName ≠ "" := by decide
  have hsq : sqliteName ≠ "" := by decide
  have hms : mssqlName ≠ "" := by decide
  have h1 : mysqlName ≠ pgName := by decide
  have h2 : sqliteName ≠ pgName := by decide
  have h3 : sqliteName ≠ mysqlName := by decide
  have h4 : mssqlName ≠ pgName := by decide
  have h5 : mssqlName ≠ mysqlName := by decide
  have h6 : mssqlName ≠ sqliteName := by decide
  have h1' : pgName ≠ mysqlName := by decide
  have h2' : pgName ≠ sqliteName := by decide
  have h3' : mysqlName ≠ sqliteName := by decide
  have h4' : pgName ≠ mssqlName := by decide
  have h5' : mysqlName ≠ mssqlName := by decide
  have h6' : sqliteName ≠ mssqlName := by decide
  refine ⟨?_, ?_, ?_, ?_, ?_, ?_, ?_⟩ <;> intros <;>
    simp_all [expandFromFile, hfind, Except.bind]

/-- Witness for the amended C5 at the concrete PostgreSQL-tagged entry. -/
theorem claim5_offline_backend_amended_witness :
    expandFromFile allFeatures (fun _ => none) (.ok ()) cInput0 [cEntryPg]
      = expandWithData allFeatures (fun _ => none) (.ok ()) cInput0
          ⟨cEntryPg.describe⟩ :=
  (claim5_offline_backend_amended allFeatures (fun _ => none) (.ok ()) cInput0
    [cEntryPg] cEntryPg rfl).1 rfl rfl

/-- C6: the backend selector maps each connection-URL scheme to exactly one
backend, with the alias pairs postgres/postgresql, mysql/mariadb and
mssql/sqlserver selecting the same backend; an unknown scheme fails naming
the scheme; a known scheme whose feature is compiled out fails naming the
required backend, independently of the other features (no fallback); and
`expand_from_db` propagates the selector's error. -/
theorem claim6_backend_selector (feats : Features) :
    (selectBackend feats "postgres" = selectBackend feats "postgresql")
  ∧ (selectBackend feats "mssql" = selectBackend feats "sqlserver")
  ∧ (selectBackend feats "mysql" = selectBackend feats "mariadb")
  ∧ (feats.postgres = true → selectBackend feats "postgres" = .ok .postgres)
  ∧ (feats.postgres = false →
      selectBackend feats "postgres"
        = .error (schemeFeatureError "PostgreSQL" "postgres"))
  ∧ (feats.mssql = true → selectBackend feats "mssql" = .ok .mssql)
  ∧ (feats.mssql = false →
      selectBackend feats "mssql" = .error (schemeFeatureError "MSSQL" "mssql"))
  ∧ (feats.mysql = true → selectBackend feats "mysql" = .ok .mysql)
  ∧ (feats.mysql = false →
      selectBackend feats "mysql"
        = .error (schemeFeatureError "MySQL/MariaDB" "mysql"))
  ∧ (feats.sqlite = true → selectBackend feats "sqlite" = .ok .sqlite)
  ∧ (feats.sqlite = false →
      selectBackend feats "sqlite"
        = .error (schemeFeatureError "SQLite" "sqlite"))
  ∧ (∀ s : String,
      s ∉ (["postgres", "postgresql", "mssql", "sqlserver", "mysql",
             "mariadb", "sqlite"] : List String) →
      selectBackend feats s = .error (unknownSchemeError s))
  ∧ (∀ (parseUrl : String → Except String Url)
       (oracle : Backend → String → String → Except String Describe)
       (tyMap : String → Option String) (quoteArgs : Except String Unit)
       (input : QueryMacroInput) (dbUrl : String) (u : Url) (msg : String),
      parseUrl dbUrl = .ok u → selectBackend feats u.scheme = .error msg →
      expandFromDb parseUrl oracle feats tyMap quoteArgs input dbUrl
        = .error msg) := by
  refine ⟨?_, ?_, ?_, ?_, ?_, ?_, ?_, ?_, ?_, ?_, ?_, ?_, ?_⟩
  · simp [selectBackend]
  · simp [selectBackend]
  · simp [selectBackend]
  · intro h; simp [selectBackend, h]
  · intro h; simp [selectBackend, h]
  · intro h; simp [selectBackend, h]
  · intro h; simp [selectBackend, h]
  · intro h; simp [selectBackend, h]
  · intro h; simp [selectBackend, h]
  · intro h; simp [selectBackend, h]
  · intro h; simp [selectBackend, h]
  · intro s hs
    simp only [List.mem_cons, List.not_mem_nil, or_false, not_or] at hs
    obtain ⟨n1, n2, n3, n4, n5, n6, n7⟩ := hs
    simp [selectBackend, n1, n2, n3, n4, n5, n6, n7]
  · intro parseUrl oracle tyMap quoteArgs input dbUrl u msg hU hB
    simp [expandFromDb, hU, hB, Except.bind]

/-- Witness for C6: the selector picks PostgreSQL for the `postgres` scheme
when the feature is compiled in. -/
theorem claim6_backend_selector_witness :
    selectBackend allFeatures "postgres" = .ok .postgres :=
  (claim6_backend_selector allFeatures).2.2.2.1 rfl

/-- C7: file-based query sources are rejected when the path is absolute,
and — with a distinct error message — when the path has no parent directory
component; any other path is resolved against the build-root directory from
`CARGO_MANIFEST_DIR`, whose absence is a configuration error with its own
specific message rather than a silent fallback. -/
theorem claim7_file_path (source : String) (manifestDir : Option String)
    (fs : String → Option String) :
    (isAbsolute source = true →
      read_file_src source manifestDir fs = .error absolutePathError)
  ∧ (isAbsolute source = false → hasParentDir source = false →
      read_file_src source manifestDir fs = .error relativePathError)
  ∧ absolutePathError ≠ relativePathError
  ∧ (isAbsolute source = false → hasParentDir source = true →
      manifestDir = none →
      read_file_src source manifestDir fs = .error manifestDirError)
  ∧ (∀ base, isAbsolute source = false → hasParentDir source = true →
      read_file_src source (some base) fs
        = readQueryFile fs (joinPath base source)) := by
  refine ⟨?_, ?_, ?_, ?_, ?_⟩
  · intro h; simp [read_file_src, h]
  · intro h1 h2; simp [read_file_src, h1, h2]
  · decide
  · intro h1 h2 h3; simp [read_file_src, h1, h2, h3]
  · intro base h1 h2; simp [read_file_src, h1, h2]

/-- Witness for C7: a path with a directory component resolves against the
build root. -/
theorem claim7_file_path_witness :
    read_file_src "queries/q.sql" (some "/proj")
        (fun p => if p = "/proj/queries/q.sql" then some "SELECT 1" else none)
      = readQueryFile
          (fun p => if p = "/proj/queries/q.sql" then some "SELECT 1" else none)
          (joinPath "/proj" "queries/q.sql") :=
  (claim7_file_path "queries/q.sql" (some "/proj")
    (fun p => if p = "/proj/queries/q.sql" then some "SELECT 1" else none)).2.2.2.2
    "/proj" (by decide) (by decide)

/-- C8: with the `offline` feature compiled in, a manifest directory set and
a clean `.env` load, a present `DATABASE_URL` takes the live describe path;
an absent one reads the offline snapshot when sqlx-data.json exists; and
when neither a URL nor a snapshot exists the expansion fails with the error
telling the user to set `DATABASE_URL` or run `cargo sqlx prepare`. -/
theorem claim8_offline_trigger (parseUrl : String → Except String Url)
    (oracle : Backend → String → String → Except String Describe)
    (feats : Features) (tyMap : String → Option String)
    (quoteArgs : Except String Unit) (env : BuildEnv)
    (input : QueryMacroInput) (dir : String)
    (hoff : feats.offline = true)
    (hdir : env.manifestDir = some dir)
    (henv : env.envLoad = .ok ()) :
    (∀ url, env.databaseUrl = some url →
      expand_input parseUrl oracle feats tyMap quoteArgs env input
        = expandFromDb parseUrl oracle feats tyMap quoteArgs input url)
  ∧ (∀ snap, env.databaseUrl = none → env.dataFile = some snap →
      expand_input parseUrl oracle feats tyMap quoteArgs env input
        = expandFromFile feats tyMap quoteArgs input snap)
  ∧ (env.databaseUrl = none → env.dataFile = none →
      expand_input parseUrl oracle feats tyMap quoteArgs env input
        = .error noUrlOfflineError) := by
  refine ⟨?_, ?_, ?_⟩ <;> intros <;>
    simp_all [expand_input, Except.bind]

/-- Witness for C8 at a concrete environment without `DATABASE_URL` but
with a snapshot. -/
theorem claim8_offline_trigger_witness :
    expand_input (fun _ => .error "unparsed") (fun _ _ _ => .error "no db")
        allFeatures (fun _ => none) (.ok ()) cEnvOffline cInput0
      = expandFromFile allFeatures (fun _ => none) (.ok ()) cInput0 [cEntryPg] :=
  (claim8_offline_trigger (fun _ => .error "unparsed") (fun _ _ _ => .error "no db")
    allFeatures (fun _ => none) (.ok ()) cEnvOffline cInput0 "/proj"
    rfl rfl rfl).2.1 [cEntryPg] rfl rfl

/-- A successful `parseStep` is one of five recognized-key updates. -/
theorem parseStep_ok_cases (st : ParseState) (e : String × InputValue)
    (st' : ParseState) (h : parseStep st e = .ok st') :
    (e.1 = "source" ∧ ∃ s, st' = { st with querySrc := some (.string s) })
  ∨ (e.1 = "source_file" ∧ ∃ f, st' = { st with querySrc := some (.file f) })
  ∨ (e.1 = "args" ∧ ∃ es, st' = { st with args := some es })
  ∨ (e.1 = "record" ∧ ∃ t, st' = { st with recordType := .Given t })
  ∨ (e.1 = "checked" ∧ ∃ b, st' = { st with checked := b }) := by
  unfold parseStep at h
  split at h
  · rename_i hk
    split at h <;>
      first
        | exact Except.noConfusion h
        | (injection h with h2; exact Or.inl ⟨hk, _, h2.symm⟩)
  · split at h
    · rename_i hk
      split at h <;>
        first
          | exact Except.noConfusion h
          | (injection h with h2; exact Or.inr (Or.inl ⟨hk, _, h2.symm⟩))
    · split at h
      · rename_i hk
        split at h <;>
          first
            | exact Except.noConfusion h
            | (injection h with h2; exact Or.inr (Or.inr (Or.inl ⟨hk, _, h2.symm⟩)))
      · split at h
        · rename_i hk
          split at h <;>
            first
              | exact Except.noConfusion h
              | (injection h with h2;
                 exact Or.inr (Or.inr (Or.inr (Or.inl ⟨hk, _, h2.symm⟩))))
        · split at h
          · rename_i hk
            split at h <;>
              first
                | exact Except.noConfusion h
                | (injection h with h2;
                   exact Or.inr (Or.inr (Or.inr (Or.inr ⟨hk, _, h2.symm⟩))))
          · exact Except.noConfusion h

/-- A step on a key other than `source`/`source_file` leaves the recorded
query source unchanged. -/
theorem parseStep_querySrc_pres (st : ParseState) (e : String × InputValue)
    (st' : ParseState) (h1 : e.1 ≠ "source") (h2 : e.1 ≠ "source_file")
    (h : parseStep st e = .ok st') : st'.querySrc = st.querySrc := by
  rcases parseStep_ok_cases st e st' h with
    ⟨hk, _⟩ | ⟨hk, _⟩ | ⟨_, es, hst⟩ | ⟨_, t, hst⟩ | ⟨_, b, hst⟩
  · exact absurd hk h1
  · exact absurd hk h2
  · rw [hst]
  · rw [hst]
  · rw [hst]

/-- A step on a key other than `checked` leaves the checked flag
unchanged. -/
theorem parseStep_checked_pres (st : ParseState) (e : String × InputValue)
    (st' : ParseState) (h1 : e.1 ≠ "checked")
    (h : parseStep st e = .ok st') : st'.checked = st.checked := by
  rcases parseStep_ok_cases st e st' h with
    ⟨_, s, hst⟩ | ⟨_, f, hst⟩ | ⟨_, es, hst⟩ | ⟨_, t, hst⟩ | ⟨hk, _⟩
  · rw [hst]
  · rw [hst]
  · rw [hst]
  · rw [hst]
  · exact absurd hk h1

/-- A benign entry always steps successfully and leaves the recorded query
source unchanged. -/
theorem parseStep_benign (st : ParseState) (e : String × InputValue)
    (hb : benignEntry e) :
    ∃ st', parseStep st e = .ok st' ∧ st'.querySrc = st.querySrc := by
  obtain ⟨k, v⟩ := e
  rcases hb with ⟨hk, es, hv⟩ | ⟨hk, t, hv⟩ | ⟨hk, b, hv⟩ <;>
    simp only at hk hv <;> subst hk <;> subst hv
  · exact ⟨{ st with args := some es }, by simp [parseStep], rfl⟩
  · exact ⟨{ st with recordType := .Given t }, by simp [parseStep], rfl⟩
  · exact ⟨{ st with checked := b }, by simp [parseStep], rfl⟩

/-- A run over benign entries succeeds and leaves the recorded query source
unchanged. -/
theorem runParse_benign (entries : List (String × InputValue))
    (st : ParseState) (hb : ∀ e ∈ entries, benignEntry e) :
    ∃ st', runParse st entries = .ok st' ∧ st'.querySrc = st.querySrc := by
  induction entries generalizing st with
  | nil => exact ⟨st, rfl, rfl⟩
  | cons e rest ih =>
    obtain ⟨st1, hstep, hq1⟩ := parseStep_benign st e (hb e (List.mem_cons_self _ _))
    obtain ⟨st2, hrun, hq2⟩ :=
      ih st1 (fun x hx => hb x (List.mem_cons_of_mem _ hx))
    refine ⟨st2, ?_, hq2.trans hq1⟩
    simp only [runParse]
    rw [hstep]
    simpa [Except.bind] using hrun

/-- A run over entries none of which is `source`/`source_file` leaves the
recorded query source unchanged. -/
theorem runParse_querySrc_pres (entries : List (String × InputValue))
    (st st' : ParseState)
    (hk : ∀ e ∈ entries, e.1 ≠ "source" ∧ e.1 ≠ "source_file")
    (h : runParse st entries = .ok st') : st'.querySrc = st.querySrc := by
  induction entries generalizing st with
  | nil =>
    simp only [runParse] at h
    injection h with h2
    rw [← h2]
  | cons e rest ih =>
    simp only [runParse] at h
    cases hs : parseStep st e with
    | error e2 => rw [hs] at h; exact Except.noConfusion h
    | ok st1 =>
      rw [hs] at h
      simp only [Except.bind] at h
      have hrest := ih st1 (fun x hx => hk x (List.mem_cons_of_mem _ hx)) h
      rw [hrest,
        parseStep_querySrc_pres st e st1 (hk e (List.mem_cons_self _ _)).1
          (hk e (List.mem_cons_self _ _)).2 hs]

/-- A run over entries none of which is `checked` leaves the checked flag
unchanged. -/
theorem runParse_checked_pres (entries : List (String × InputValue))
    (st st' : ParseState) (hk : ∀ e ∈ entries, e.1 ≠ "checked")
    (h : runParse st entries = .ok st') : st'.checked = st.checked := by
  induction entries generalizing st with
  | nil =>
    simp only [runParse] at h
    injection h with h2
    rw [← h2]
  | cons e rest ih =>
    simp only [runParse] at h
    cases hs : parseStep st e with
    | error e2 => rw [hs] at h; exact Except.noConfusion h
    | ok st1 =>
      rw [hs] at h
      simp only [Except.bind] at h
      have hrest := ih st1 (fun x hx => hk x (List.mem_cons_of_mem _ hx)) h
      rw [hrest, parseStep_checked_pres st e st1 (hk e (List.mem_cons_self _ _)) hs]

/-- The parse loop distributes over appending entry lists. -/
theorem runParse_append (l1 l2 : List (String × InputValue)) (st : ParseState) :
    runParse st (l1 ++ l2)
      = (runParse st l1).bind fun st' => runParse st' l2 := by
  induction l1 generalizing st with
  | nil => simp [runParse, Except.bind]
  | cons e rest ih =>
    simp only [List.cons_append, runParse]
    cases hs : parseStep st e with
    | error e2 => simp [Except.bind]
    | ok st1 => simp [Except.bind, ih]

/-- A successful parse exposes a final loop state with a recorded source and
the parsed input's checked flag. -/
theorem parse_ok_state (entries : List (String × InputValue))
    (manifestDir : Option String) (fs : String → Option String)
    (q : QueryMacroInput)
    (h : parseQueryMacroInput entries manifestDir fs = .ok q) :
    ∃ st qs, runParse initParseState entries = .ok st ∧
      st.querySrc = some qs ∧ q.checked = st.checked := by
  unfold parseQueryMacroInput at h
  cases hr : runParse initParseState entries with
  | error e => rw [hr] at h; exact Except.noConfusion h
  | ok st =>
    rw [hr] at h
    simp only [Except.bind] at h
    cases hq : st.querySrc with
    | none => rw [hq] at h; exact Except.noConfusion h
    | some qs =>
      simp only [hq] at h
      cases hres : resolveSrc qs manifestDir fs with
      | error e2 =>
        rw [hres] at h
        simp only [Except.map] at h
        exact Except.noConfusion h
      | ok s =>
        rw [hres] at h
        simp only [Except.map, Except.ok.injEq] at h
        exact ⟨st, qs, rfl, hq, by rw [← h]⟩

/-- C9 counterexample: with an unrecognized key and no source key at all,
parsing fails, but with the key-naming error rather than the missing-source
error the claim prescribes. -/
theorem claim9_missing_source_counterexample :
    parseQueryMacroInput [("frobnicate", .boolLit true)] none (fun _ => none)
      = .error "unexpected input key: frobnicate"
    ∧ "unexpected input key: frobnicate" ≠ missingSourceError :=
  ⟨rfl, by decide⟩

/-- C9 (amended): when neither `source` nor `source_file` is supplied and
every supplied entry is an otherwise-recognized key with a well-typed value,
parsing fails with the missing-source error (an unrecognized key or
ill-typed value fails earlier with its own error); and parsing never
succeeds without a `source`/`source_file` entry, so every successfully
parsed input carries a resolved source string. -/
theorem claim9_missing_source_amended :
    (∀ entries manifestDir fs, (∀ e ∈ entries, benignEntry e) →
      parseQueryMacroInput entries manifestDir fs = .error missingSourceError)
  ∧ (∀ entries manifestDir fs q,
      parseQueryMacroInput entries manifestDir fs = .ok q →
      ∃ e, e ∈ entries ∧ (e.1 = "source" ∨ e.1 = "source_file")) := by
  constructor
  · intro entries manifestDir fs hb
    obtain ⟨st, hrun, hq⟩ := runParse_benign entries initParseState hb
    have hnone : st.querySrc = none := hq
    simp [parseQueryMacroInput, hrun, Except.bind, hnone]
  · intro entries manifestDir fs q h
    by_contra hc
    push_neg at hc
    obtain ⟨st, qs, hrun, hq, _⟩ := parse_ok_state entries manifestDir fs q h
    have hpres := runParse_querySrc_pres entries initParseState st hc hrun
    simp [hq, initParseState] at hpres

/-- Witness for the amended C9: a lone well-typed `checked` entry yields the
missing-source error. -/
theorem claim9_missing_source_amended_witness :
    parseQueryMacroInput [("checked", InputValue.boolLit false)] none
      (fun _ => none) = .error missingSourceError :=
  claim9_missing_source_amended.1 [("checked", .boolLit false)] none
    (fun _ => none)
    (by
      intro e he
      simp only [List.mem_singleton] at he
      subst he
      exact Or.inr (Or.inr ⟨rfl, false, rfl⟩))

/-- C10: without a `checked` key the parsed input has `checked = true`
(checked mode is the default); with a `checked = b` entry (and no later
`checked` entry) the parsed input's flag is the literal's value `b`. -/
theorem claim10_checked_default :
    (∀ entries manifestDir fs q, (∀ e ∈ entries, e.1 ≠ "checked") →
      parseQueryMacroInput entries manifestDir fs = .ok q → q.checked = true)
  ∧ (∀ pre post manifestDir fs (b : Bool) q,
      (∀ e ∈ post, e.1 ≠ "checked") →
      parseQueryMacroInput (pre ++ ("checked", InputValue.boolLit b) :: post)
        manifestDir fs = .ok q →
      q.checked = b) := by
  constructor
  · intro entries manifestDir fs q hk h
    obtain ⟨st, qs, hrun, hq, hch⟩ := parse_ok_state entries manifestDir fs q h
    have hpres := runParse_checked_pres entries initParseState st hk hrun
    rw [hch, hpres]
    rfl
  · intro pre post manifestDir fs b q hk h
    obtain ⟨st, qs, hrun, hq, hch⟩ := parse_ok_state _ _ _ _ h
    rw [runParse_append] at hrun
    cases h1 : runParse initParseState pre with
    | error e0 => rw [h1] at hrun; exact Except.noConfusion hrun
    | ok st1 =>
      rw [h1] at hrun
      simp only [Except.bind] at hrun
      simp only [runParse] at hrun
      have hstep : parseStep st1 ("checked", InputValue.boolLit b)
          = .ok { st1 with checked := b } := by simp [parseStep]
      rw [hstep] at hrun
      simp only [Except.bind] at hrun
      have hpres := runParse_checked_pres post _ st hk hrun
      rw [hch, hpres]

/-- Witness for C10: parsing `source = "SELECT 1", checked = false` yields a
`QueryMacroInput` with `checked = false`. -/
theorem claim10_checked_default_witness :
    cParsedUnchecked.checked = false :=
  claim10_checked_default.2 [("source", .strLits ["SELECT 1"])] [] none
    (fun _ => none) false cParsedUnchecked
    (by intro e he; exact absurd he (List.not_mem_nil e))
    (by rfl)

end Sqlx
